import Mathlib

/-!
Verification development for the Sushi RAG MCP server (src/mcp/server.py).

The server is a thin adapter: it validates input, delegates retrieval to a
vector store, delegates synthesis to an LLM, and formats output.  The
external collaborators (vector store ranking, embeddings, LLM) are opaque:
the vector store is modelled as the ranked scored-chunk list it would return
for the query at hand, the LLM answer as an arbitrary string argument.
Relevance scores (Python floats in the unit interval) are modelled as
rationals; Python strings are Lean strings (sequences of code points).
-/

namespace SushiRag

-- ---------------------------------------------------------------------------
-- Data model
-- ---------------------------------------------------------------------------

/-- Metadata mapping of a stored chunk: string keys to scalar values.
A key can be absent from the list, present with JSON null (modelled as
Option.none), or present with a string value.  Keys are unique, as in a
Python dict; lookups take the first matching entry. -/
structure Meta where
  entries : List (String × Option String)
deriving DecidableEq

/-- A document chunk: page content plus metadata (langchain Document). -/
structure Doc where
  content : String
  meta : Meta
deriving DecidableEq

/-- Output format enum of server.py (class ResponseFormat). -/
inductive ResponseFormat where
  | markdown
  | json
deriving DecidableEq

-- ---------------------------------------------------------------------------
-- Configuration constants (the documented defaults of the env reads,
-- server.py lines 38-45)
-- ---------------------------------------------------------------------------

def CHROMA_HOST : String := "localhost"

def CHROMA_PORT : Nat := 8000

def CHROMA_COLLECTION : String := "sushi_menu"

def DEFAULT_K_DOCS : Nat := 4

def MAX_K_DOCS : Nat := 10

-- ---------------------------------------------------------------------------
-- Python primitives used by the source, modelled on Lean strings
-- ---------------------------------------------------------------------------

/-- Python slicing s[:n] on a string: the first n code points. -/
def pyTake (s : String) (n : Nat) : String :=
  ⟨s.data.take n⟩

/-- Does hay start with needle (helper for substring containment). -/
def listStartsWith : List Char → List Char → Bool
  | _, [] => true
  | [], _ :: _ => false
  | c :: cs, d :: ds => (c == d) && listStartsWith cs ds

/-- Is needle a contiguous substring of hay (helper for strContains). -/
def listContainsSub : List Char → List Char → Bool
  | [], needle => listStartsWith [] needle
  | c :: rest, needle => listStartsWith (c :: rest) needle || listContainsSub rest needle

/-- Python membership test: needle in hay, for strings. -/
def strContains (hay needle : String) : Bool :=
  listContainsSub hay.data needle.data

/-- Python dict.get(k) with no default: the stored value if the key is
present (collapsing a stored null to none), none if the key is absent. -/
def Meta.get1 (m : Meta) (k : String) : Option String :=
  ((m.entries.find? (fun kv => kv.1 == k)).map Prod.snd).bind id

/-- Python dict lookup distinguishing absence from a stored null: outer
none means the key is absent, some v means the key is present with v
(v itself none when the stored value is null). -/
def Meta.find1 (m : Meta) (k : String) : Option (Option String) :=
  (m.entries.find? (fun kv => kv.1 == k)).map Prod.snd

/-- Python dict.get(k, default): the stored value whenever the key is
present, even if that value is null or empty; the default only when the
key is absent. -/
def Meta.getD (m : Meta) (k : String) (d : Option String) : Option String :=
  match m.find1 k with
  | some v => v
  | none => d

/-- Python truthiness of an optional string: None and the empty string are
falsy, every other string is truthy. -/
def truthy : Option String → Bool
  | none => false
  | some s => !(s == "")

/-- Python x or y on optional strings: the first operand if truthy,
otherwise the second. -/
def pyOr (a b : Option String) : Option String :=
  if truthy a then a else b

/-- Python str() applied to a label that may be None. -/
def labelRepr : Option String → String
  | some s => s
  | none => "None"

/-- Python str.lower(), character-wise (the messages classified here are
ASCII). -/
def pyLower (s : String) : String :=
  ⟨s.data.map Char.toLower⟩

/-- Python string comparison: lexicographic on the code-point sequences. -/
def strLe (a b : String) : Prop :=
  a.data ≤ b.data

instance : DecidableRel strLe :=
  fun a b => (inferInstance : Decidable (a.data ≤ b.data))

instance : IsTrans String strLe :=
  ⟨fun _ _ _ h1 h2 => le_trans h1 h2⟩

instance : IsTotal String strLe :=
  ⟨fun a b => le_total a.data b.data⟩

instance : IsAntisymm String strLe :=
  ⟨fun a b h1 h2 => by
    cases a; cases b
    exact congrArg String.mk (le_antisymm h1 h2)⟩

-- ---------------------------------------------------------------------------
-- Numeric rendering used by the formatters (scores are rationals here;
-- the rounding mode of Python float formatting is approximated by round)
-- ---------------------------------------------------------------------------

/-- Zero-pad a natural number below 1000 to three digits. -/
def pad3 (n : Nat) : String :=
  if n < 10 then "00" ++ toString n
  else if n < 100 then "0" ++ toString n
  else toString n

/-- Models the Python format specifier .3f on a score. -/
def fmt3 (q : ℚ) : String :=
  let n : Int := round (q * 1000)
  let sgn := if n < 0 then "-" else ""
  sgn ++ toString (n.natAbs / 1000) ++ "." ++ pad3 (n.natAbs % 1000)

/-- Zero-pad a natural number below 10000 to four digits. -/
def pad4 (n : Nat) : String :=
  if n < 10 then "000" ++ toString n
  else if n < 100 then "00" ++ toString n
  else if n < 1000 then "0" ++ toString n
  else toString n

/-- Models round(score, 4) followed by the JSON float rendering: up to four
fractional digits with trailing zeros stripped (at least one digit kept). -/
def score4Repr (q : ℚ) : String :=
  let n : Int := round (q * 10000)
  let sgn := if n < 0 then "-" else ""
  let frac := ((pad4 (n.natAbs % 10000)).data.reverse.dropWhile (fun c => c == '0')).reverse
  let fracS := if frac = [] then "0" else String.mk frac
  sgn ++ toString (n.natAbs / 10000) ++ "." ++ fracS

-- ---------------------------------------------------------------------------
-- JSON serialization for the concrete shapes emitted by server.py
-- (json.dumps with indent=2: insertion order kept, two-space indent)
-- ---------------------------------------------------------------------------

/-- Escape one character for a JSON string literal. -/
def escChar (c : Char) : String :=
  if c == '"' then "\\\""
  else if c == '\\' then "\\\\"
  else if c == '\n' then "\\n"
  else if c == '\t' then "\\t"
  else if c == '\r' then "\\r"
  else String.singleton c

/-- A JSON string literal. -/
def jsonStr (s : String) : String :=
  "\"" ++ String.join (s.data.map escChar) ++ "\""

/-- A JSON value that is a string or null. -/
def jsonOptStr : Option String → String
  | none => "null"
  | some s => jsonStr s

/-- One metadata mapping as a JSON object, indented by pad. -/
def metaJson (pad : String) (m : Meta) : String :=
  match m.entries with
  | [] => "\x7b\x7d"
  | es =>
    "\x7b\n"
      ++ String.intercalate ",\n"
        (es.map (fun kv => pad ++ "  " ++ jsonStr kv.1 ++ ": " ++ jsonOptStr kv.2))
      ++ "\n" ++ pad ++ "\x7d"

-- ---------------------------------------------------------------------------
-- Answer formatter (_format_sources, server.py lines 82-96)
-- ---------------------------------------------------------------------------

/-- One source entry of the JSON branch of _format_sources. -/
def sourceItemJson (d : Doc) : String :=
  "  \x7b\n    \"content\": " ++ jsonStr d.content
    ++ ",\n    \"metadata\": " ++ metaJson "    " d.meta ++ "\n  \x7d"

/-- The JSON branch of _format_sources. -/
def sourcesJsonDump (docs : List Doc) : String :=
  match docs with
  | [] => "[]"
  | _ => "[\n" ++ String.intercalate ",\n" (docs.map sourceItemJson) ++ "\n]"

/-- Label selection of _format_sources line 94:
meta.get("source", meta.get("title", f"Document i")).  dict.get falls back
only when the key is absent, so a present empty or null value is used. -/
def format_source_label (m : Meta) (i : Nat) : Option String :=
  m.getD "source" (m.getD "title" (some ("Document " ++ toString i)))

/-- One rendered source block of the markdown branch of _format_sources
(line 95): label header, then the first 300 code points of the content,
then an ellipsis marker appended unconditionally. -/
def source_block (i : Nat) (d : Doc) : String :=
  "\n**" ++ toString i ++ ". " ++ labelRepr (format_source_label d.meta i)
    ++ "**\n" ++ pyTake d.content 300 ++ "…"

/-- _format_sources: empty input gives the empty string; JSON mode dumps
content plus metadata; markdown mode renders a Sources retrieved section
with 1-based numbering. -/
def format_sources (source_docs : List Doc) (fmt : ResponseFormat) : String :=
  if source_docs = [] then ""
  else match fmt with
  | ResponseFormat.json => sourcesJsonDump source_docs
  | ResponseFormat.markdown =>
    String.intercalate "\n"
      ("\n\n---\n**Sources retrieved:**"
        :: source_docs.enum.map (fun p => source_block (p.1 + 1) p.2))

/-- Markdown output of sushi_rag_query (lines 241-244): the answer header
and answer text, with the formatted sources appended when requested.  The
LLM answer and the separately fetched source docs are opaque inputs. -/
def sushi_rag_query_markdown (answer : String) (include_sources : Bool)
    (source_docs : List Doc) : String :=
  "**Answer:**\n\n" ++ answer
    ++ (if include_sources then format_sources source_docs ResponseFormat.markdown else "")

-- ---------------------------------------------------------------------------
-- Error classifier (_handle_error, server.py lines 99-108)
-- ---------------------------------------------------------------------------

/-- A Python exception as the classifier sees it: its type name and the
text of str(e). -/
structure PyException where
  kind : String
  msg : String
deriving DecidableEq

/-- _handle_error: three checks in order.  First the case-sensitive
API-key check on the raw message; then the case-insensitive
missing-collection check on the lowercased message; else the generic
message built from the exception type name and text. -/
def handle_error (e : PyException) : String :=
  if strContains e.msg "OPENAI_API_KEY" then
    "Error: OPENAI_API_KEY is not set. Export it before starting the server."
  else if strContains (pyLower e.msg) "does not exist" || strContains (pyLower e.msg) "no such" then
    "Error: ChromaDB collection not found. Run the ingestion script to populate \x27"
      ++ CHROMA_COLLECTION ++ "\x27 first."
  else
    "Error: " ++ e.kind ++ ": " ++ e.msg

-- ---------------------------------------------------------------------------
-- Pipeline selection (sushi_rag_query lines 215-219, app_lifespan line 138)
-- ---------------------------------------------------------------------------

/-- Which pipeline a call uses: the one cached at startup, or a fresh one
built for this call with the requested width. -/
inductive Chain where
  | cached
  | fresh (k : Nat)
deriving DecidableEq

/-- The pipeline decision of sushi_rag_query: rebuild only if k_docs
differs from the default, else take the cached startup chain. -/
def select_chain (k_docs : Nat) : Chain :=
  if k_docs ≠ DEFAULT_K_DOCS then Chain.fresh k_docs else Chain.cached

/-- Number of pipeline constructions performed over a sequence of
sushi_rag_query calls with the given k_docs values: non-default calls
each build one, default calls build none. -/
def builds_for : List Nat → Nat
  | [] => 0
  | k :: rest => (if k ≠ DEFAULT_K_DOCS then 1 else 0) + builds_for rest

-- ---------------------------------------------------------------------------
-- Semantic search (sushi_semantic_search, server.py lines 292-345)
-- ---------------------------------------------------------------------------

/-- Models lines 314-322: similarity_search_with_relevance_scores fetches
the top k scored chunks of the ranked store list, then, when a threshold
was supplied, chunks with score strictly below it are dropped after
retrieval. -/
def search_results (store : List (Doc × ℚ)) (k : Nat) (threshold : Option ℚ) :
    List (Doc × ℚ) :=
  let docs_and_scores := store.take k
  match threshold with
  | none => docs_and_scores
  | some t => docs_and_scores.filter (fun ds => decide (t ≤ ds.2))

/-- Label selection of the search markdown branch (line 343):
meta.get("source", meta.get("title", "Unknown source")). -/
def search_label (m : Meta) : Option String :=
  m.getD "source" (m.getD "title" (some "Unknown source"))

/-- One JSON item of the search JSON branch (lines 330-338). -/
def searchItemJson (i : Nat) (d : Doc) (score : ℚ) : String :=
  "  \x7b\n    \"rank\": " ++ toString i
    ++ ",\n    \"score\": " ++ score4Repr score
    ++ ",\n    \"content\": " ++ jsonStr d.content
    ++ ",\n    \"metadata\": " ++ metaJson "    " d.meta ++ "\n  \x7d"

/-- The search JSON branch: a JSON array of rank, score, content, metadata. -/
def searchJsonDump (ds : List (Doc × ℚ)) : String :=
  match ds with
  | [] => "[]"
  | _ =>
    "[\n"
      ++ String.intercalate ",\n" (ds.enum.map (fun p => searchItemJson (p.1 + 1) p.2.1 p.2.2))
      ++ "\n]"

/-- One rendered block of the search markdown branch (line 344): label,
score to three decimals, then the full untruncated content. -/
def search_block (i : Nat) (d : Doc) (score : ℚ) : String :=
  "**" ++ toString i ++ ". " ++ labelRepr (search_label d.meta)
    ++ "** _(score: " ++ fmt3 score ++ ")_\n" ++ d.content ++ "\n"

/-- sushi_semantic_search: fetch and filter, return the no-results message
when the (optionally filtered) list is empty, else render in the requested
format.  The store argument is the ranked scored list the vector store
would return for this query. -/
def sushi_semantic_search (store : List (Doc × ℚ)) (query : String) (k : Nat)
    (score_threshold : Option ℚ) (fmt : ResponseFormat) : String :=
  let docs_and_scores := search_results store k score_threshold
  if docs_and_scores = [] then
    "No results found for query: \x27" ++ query ++ "\x27"
  else match fmt with
  | ResponseFormat.json => searchJsonDump docs_and_scores
  | ResponseFormat.markdown =>
    String.intercalate "\n"
      (("**Semantic search results for:** `" ++ query ++ "`\n")
        :: docs_and_scores.enum.map (fun p => search_block (p.1 + 1) p.2.1 p.2.2))

-- ---------------------------------------------------------------------------
-- Topic indexer (sushi_list_topics, server.py lines 389-405)
-- ---------------------------------------------------------------------------

/-- Label derivation of lines 396-398: meta.get("source") or
meta.get("title") or meta.get("topic"), Python or keeping the first truthy
operand. -/
def topic_label (m : Meta) : Option String :=
  pyOr (m.get1 "source") (pyOr (m.get1 "title") (m.get1 "topic"))

/-- The label actually added to the topics set: topic_label m when it is
truthy (line 397-398: if label: topics.add(label)), nothing otherwise. -/
def truthy_label (m : Meta) : Option String :=
  let label := topic_label m
  if truthy label then label else none

/-- The JSON object returned by sushi_list_topics. -/
structure TopicsResult where
  total_unique_topics : Nat
  returned : Nat
  topics : List String
deriving DecidableEq

/-- sushi_list_topics: scan all stored metadata, collect truthy labels
into a set (dedup models the Python set), sort lexicographically, truncate
to limit, and report the pre-truncation unique count (lines 394-405). -/
def sushi_list_topics (metas : List Meta) (limit : Nat) : TopicsResult :=
  let topics := (metas.filterMap truthy_label).dedup
  let sorted_topics := (topics.insertionSort strLe).take limit
  { total_unique_topics := topics.length
    returned := sorted_topics.length
    topics := sorted_topics }

-- ---------------------------------------------------------------------------
-- Collection stats resource (get_kb_stats, server.py lines 415-433)
-- ---------------------------------------------------------------------------

/-- A JSON scalar value of the stats object. -/
inductive JVal where
  | s (v : String)
  | n (v : Nat)
deriving DecidableEq

/-- A vector-store handle: connection coordinates plus the chunks of the
bound collection. -/
structure ChromaStore where
  host : String
  port : Nat
  collection : String
  chunks : List Doc
deriving DecidableEq

/-- The vector-store construction the try-body of get_kb_stats would
perform (chromadb.HttpClient plus Chroma, lines 419-424) if the name
chromadb resolved there; backend is the current content of the named
collection.  This construction is dead code: see resolve_chromadb. -/
def chroma_connect (host : String) (port : Nat) (collection : String)
    (backend : List Doc) : ChromaStore :=
  { host := host, port := port, collection := collection, chunks := backend }

/-- The exception Python raises at line 419: the only import of chromadb
(line 117) is local to app_lifespan, so the module global chromadb is
never bound and its lookup inside get_kb_stats fails on every call. -/
def chromadbNameError : PyException :=
  ⟨"NameError", "name \x27chromadb\x27 is not defined"⟩

/-- Resolution of the global name chromadb at line 419.  It always fails:
the import of chromadb at line 117 binds a local of app_lifespan, not the
module global that get_kb_stats references. -/
def resolve_chromadb : Except PyException Unit :=
  Except.error chromadbNameError

/-- The try-body of get_kb_stats (lines 419-431): its first statement
references the global chromadb, which raises NameError, so the transient
handle construction and the four-key stats object below it (insertion
order: collection, chroma_host, chroma_port, document_chunks) are
unreachable. -/
def get_kb_stats_try (backend : List Doc) : Except PyException (List (String × JVal)) :=
  match resolve_chromadb with
  | Except.error e => Except.error e
  | Except.ok _ =>
    let vs := chroma_connect CHROMA_HOST CHROMA_PORT CHROMA_COLLECTION backend
    Except.ok
      [("collection", JVal.s vs.collection),
       ("chroma_host", JVal.s vs.host),
       ("chroma_port", JVal.n vs.port),
       ("document_chunks", JVal.n vs.chunks.length)]

/-- get_kb_stats with its except handler (lines 418-433): a raised
exception e yields the one-key object error holding str(e); since the
try-body always raises NameError, every call returns that error object. -/
def get_kb_stats (backend : List Doc) : List (String × JVal) :=
  match get_kb_stats_try backend with
  | Except.ok kvs => kvs
  | Except.error e => [("error", JVal.s e.msg)]

-- ---------------------------------------------------------------------------
-- Concrete fixtures used by witnesses and counterexamples
-- ---------------------------------------------------------------------------

/-- A metadata mapping with a source label. -/
def exMeta : Meta := ⟨[("source", some "Nigiri Basics")]⟩

/-- A chunk with a source label. -/
def exDoc1 : Doc := ⟨"Nigiri is hand-pressed sushi rice topped with fish.", exMeta⟩

/-- A chunk with empty metadata. -/
def exDoc2 : Doc := ⟨"Maki rolls wrap rice and filling in nori.", ⟨[]⟩⟩

/-- A two-chunk ranked store. -/
def exStore : List (Doc × ℚ) := [(exDoc1, 9/10), (exDoc2, 3/10)]

-- ---------------------------------------------------------------------------
-- Claim theorems
-- ---------------------------------------------------------------------------

/-- Claim C1: with a score_threshold supplied, sushi_semantic_search returns
exactly those of the k chunks fetched from the vector store whose relevance
score is at least the threshold: the result is a sub-sequence of the fetched
top-k list, a scored chunk is kept iff it was fetched and its score is not
strictly below the threshold, and the returned count is at most k (so it can
be less than k, including zero). -/
theorem C1_threshold_filtering (store : List (Doc × ℚ)) (k : Nat) (t : ℚ) :
    (search_results store k (some t)).Sublist (store.take k)
    ∧ (∀ p : Doc × ℚ, p ∈ search_results store k (some t) ↔ p ∈ store.take k ∧ t ≤ p.2)
    ∧ (search_results store k (some t)).length ≤ k := by
  refine ⟨List.filter_sublist _, fun p => ?_, ?_⟩
  · simp [search_results, List.mem_filter]
  · calc (search_results store k (some t)).length
        ≤ (store.take k).length := (List.filter_sublist _).length_le
      _ ≤ k := by rw [List.length_take]; exact min_le_left _ _

/-- Witness for C1 at a concrete store and threshold. -/
theorem C1_threshold_filtering_witness :
    (exDoc1, (9 : ℚ)/10) ∈ search_results exStore 2 (some ((1 : ℚ)/2)) ↔
      (exDoc1, (9 : ℚ)/10) ∈ exStore.take 2 ∧ (1 : ℚ)/2 ≤ 9/10 :=
  (C1_threshold_filtering exStore 2 (1/2)).2.1 (exDoc1, 9/10)

/-- Claim C2: for a fixed store and k, raising the score_threshold never
increases the number of results returned by sushi_semantic_search. -/
theorem C2_threshold_monotone (store : List (Doc × ℚ)) (k : Nat) (t1 t2 : ℚ)
    (h : t1 ≤ t2) :
    (search_results store k (some t2)).length ≤ (search_results store k (some t1)).length := by
  have himp : ∀ ds : Doc × ℚ, decide (t2 ≤ ds.2) = true → decide (t1 ≤ ds.2) = true :=
    fun ds hds => decide_eq_true (le_trans h (of_decide_eq_true hds))
  simpa [search_results] using (List.monotone_filter_right (store.take k) himp).length_le

/-- Witness for C2 at concrete thresholds. -/
theorem C2_threshold_monotone_witness :
    (1 : ℚ)/2 ≤ 3/4
    ∧ (search_results exStore 2 (some ((3 : ℚ)/4))).length
        ≤ (search_results exStore 2 (some ((1 : ℚ)/2))).length :=
  ⟨by norm_num, C2_threshold_monotone exStore 2 (1/2) (3/4) (by norm_num)⟩

/-- Claim C3 as stated is false: on an empty result set the code returns the
message with a capitalized No (line 327), not the lowercase literal the
claim quotes.  Shown here at the concrete query wasabi. -/
theorem C3_counterexample :
    sushi_semantic_search [] "wasabi" 5 none ResponseFormat.markdown
        = "No results found for query: \x27wasabi\x27"
    ∧ sushi_semantic_search [] "wasabi" 5 none ResponseFormat.markdown
        ≠ "no results found for query: \x27wasabi\x27" :=
  ⟨rfl, by decide⟩

/-- Claim C3 amended: whenever the (optionally threshold-filtered) result
set is empty, sushi_semantic_search returns the literal message
No results found for query: quoted-query — capitalized as in the code —
and it does so for both response formats. -/
theorem C3_empty_result_message (store : List (Doc × ℚ)) (query : String) (k : Nat)
    (t : Option ℚ) (fmt : ResponseFormat)
    (h : search_results store k t = []) :
    sushi_semantic_search store query k t fmt
      = "No results found for query: \x27" ++ query ++ "\x27" := by
  unfold sushi_semantic_search
  simp [h]

/-- Witness for C3 amended, on an empty store in JSON format. -/
theorem C3_empty_result_message_witness :
    sushi_semantic_search [] "tuna" 3 none ResponseFormat.json
      = "No results found for query: \x27" ++ "tuna" ++ "\x27" :=
  C3_empty_result_message [] "tuna" 3 none ResponseFormat.json rfl

/-- A chunk whose content is longer than 300 characters. -/
def longDoc : Doc := ⟨⟨List.replicate 301 'x'⟩, ⟨[]⟩⟩

/-- Claim C4: in the answer-mode markdown source rendering, a source whose
content exceeds 300 characters is displayed as exactly its first 300
characters followed by the ellipsis marker (the displayed slice has length
exactly 300), while the search-mode markdown block always shows the full
untruncated content. -/
theorem C4_truncation_rules (i : Nat) (d : Doc) (s : ℚ)
    (h : 300 < d.content.length) :
    source_block i d
      = "\n**" ++ toString i ++ ". " ++ labelRepr (format_source_label d.meta i)
          ++ "**\n" ++ pyTake d.content 300 ++ "…"
    ∧ (pyTake d.content 300).length = 300
    ∧ search_block i d s
      = "**" ++ toString i ++ ". " ++ labelRepr (search_label d.meta)
          ++ "** _(score: " ++ fmt3 s ++ ")_\n" ++ d.content ++ "\n" := by
  refine ⟨rfl, ?_, rfl⟩
  show (d.content.data.take 300).length = 300
  rw [List.length_take]
  exact min_eq_left h.le

set_option maxRecDepth 4000 in
/-- Witness for C4 on a 301-character content. -/
theorem C4_truncation_rules_witness :
    300 < longDoc.content.length ∧ (pyTake longDoc.content 300).length = 300 := by
  have h : 300 < longDoc.content.length := by
    show (300 : Nat) < (List.replicate 301 'x').length
    simp
  exact ⟨h, (C4_truncation_rules 1 longDoc ((1 : ℚ)/2) h).2.1⟩

/-- Claim C9: the ellipsis marker of the answer-mode markdown source
rendering is appended unconditionally: every rendered source block ends in
the marker, and in particular a source whose content is at most 300
characters is shown in full and still gets the marker. -/
theorem C9_unconditional_ellipsis (i : Nat) (d : Doc)
    (h : d.content.length ≤ 300) :
    (∃ pre : String, source_block i d = pre ++ "…")
    ∧ source_block i d
      = "\n**" ++ toString i ++ ". " ++ labelRepr (format_source_label d.meta i)
          ++ "**\n" ++ d.content ++ "…" := by
  constructor
  · exact ⟨"\n**" ++ toString i ++ ". " ++ labelRepr (format_source_label d.meta i)
      ++ "**\n" ++ pyTake d.content 300, rfl⟩
  · have hx : pyTake d.content 300 = d.content := by
      show (⟨d.content.data.take 300⟩ : String) = d.content
      rw [List.take_of_length_le h]
    simp only [source_block, hx]

/-- Witness for C9 on a short content. -/
theorem C9_unconditional_ellipsis_witness :
    exDoc2.content.length ≤ 300
    ∧ source_block 2 exDoc2
      = "\n**" ++ toString 2 ++ ". " ++ labelRepr (format_source_label exDoc2.meta 2)
          ++ "**\n" ++ exDoc2.content ++ "…" :=
  ⟨by decide, (C9_unconditional_ellipsis 2 exDoc2 (by decide)).2⟩

/-- A metadata mapping on which the two label derivations disagree: the
source key is present but empty, the title key holds a label. -/
def divMeta : Meta := ⟨[("source", some ""), ("title", some "Sushi Rice")]⟩

/-- Claim C10: the answer-mode source label uses the stored source value
whenever that key is present — even empty or null — and falls back to the
title chain only when the key is absent; the topic indexer instead treats
an empty or null source value as missing and falls through to the next
field, so the two derivations disagree on divMeta: the source renderer
labels it with the empty string while the topic indexer labels it
Sushi Rice. -/
theorem C10_label_fallback_semantics :
    (∀ (m : Meta) (i : Nat) (v : Option String),
        m.find1 "source" = some v → format_source_label m i = v)
    ∧ (∀ (m : Meta) (i : Nat),
        m.find1 "source" = none
          → format_source_label m i = m.getD "title" (some ("Document " ++ toString i)))
    ∧ (∀ (m : Meta) (v : Option String),
        m.find1 "source" = some v → truthy v = false
          → topic_label m = pyOr (m.get1 "title") (m.get1 "topic"))
    ∧ format_source_label divMeta 1 = some ""
    ∧ truthy_label divMeta = some "Sushi Rice" := by
  refine ⟨?_, ?_, ?_, by decide, by decide⟩
  · intro m i v hv
    simp [format_source_label, Meta.getD, hv]
  · intro m i hv
    simp [format_source_label, Meta.getD, hv]
  · intro m v hv htr
    have hg : m.get1 "source" = v := by
      show ((m.entries.find? (fun kv => kv.1 == "source")).map Prod.snd).bind id = v
      have hv1 : (m.entries.find? (fun kv => kv.1 == "source")).map Prod.snd = some v := hv
      rw [hv1]
      cases v <;> rfl
    simp [topic_label, hg, pyOr, htr]

/-- Witness for C10 discharging its hypotheses on divMeta. -/
theorem C10_label_fallback_semantics_witness :
    format_source_label divMeta 3 = some ""
    ∧ topic_label divMeta = pyOr (divMeta.get1 "title") (divMeta.get1 "topic") :=
  ⟨C10_label_fallback_semantics.1 divMeta 3 (some "") (by decide),
   C10_label_fallback_semantics.2.2.1 divMeta (some "") (by decide) (by decide)⟩

/-- A stored-metadata fixture with two labelled items and one unlabelled. -/
def exMetas : List Meta :=
  [⟨[("source", some "Sushi Rice")]⟩, ⟨[("title", some "Nigiri Basics")]⟩, ⟨[]⟩]

/-- Claim C5: over a fixed stored-metadata collection, sushi_list_topics
reports the same total_unique_topics for every limit, namely the number of
distinct truthy labels; returned equals the length of the topics list and
never exceeds limit; and topics is the lexicographically sorted,
duplicate-free truncation to limit of the distinct labels, each of which
is a label derived from some stored item (items without a truthy label
contribute nothing). -/
theorem C5_list_topics_shape (metas : List Meta) (l1 l2 : Nat) :
    (sushi_list_topics metas l1).total_unique_topics
        = (sushi_list_topics metas l2).total_unique_topics
    ∧ (sushi_list_topics metas l1).total_unique_topics
        = (metas.filterMap truthy_label).dedup.length
    ∧ (sushi_list_topics metas l1).returned = (sushi_list_topics metas l1).topics.length
    ∧ (sushi_list_topics metas l1).topics.length ≤ l1
    ∧ List.Sorted strLe (sushi_list_topics metas l1).topics
    ∧ (sushi_list_topics metas l1).topics.Nodup
    ∧ (sushi_list_topics metas l1).topics
        = (((metas.filterMap truthy_label).dedup.insertionSort strLe).take l1)
    ∧ (∀ x : String, x ∈ (sushi_list_topics metas l1).topics
        → x ∈ metas.filterMap truthy_label) := by
  refine ⟨rfl, rfl, rfl, ?_, ?_, ?_, rfl, ?_⟩
  · show (((metas.filterMap truthy_label).dedup.insertionSort strLe).take l1).length ≤ l1
    rw [List.length_take]
    exact min_le_left _ _
  · exact (List.sorted_insertionSort _ _).sublist (List.take_sublist _ _)
  · exact ((List.perm_insertionSort _ _).nodup_iff.2
      (metas.filterMap truthy_label).nodup_dedup).sublist (List.take_sublist _ _)
  · intro x hx
    have h1 : x ∈ (metas.filterMap truthy_label).dedup.insertionSort strLe :=
      (List.take_sublist _ _).subset hx
    have h2 := (List.perm_insertionSort strLe (metas.filterMap truthy_label).dedup).mem_iff.1 h1
    exact List.mem_dedup.1 h2

/-- Witness for C5 on a concrete metadata collection. -/
theorem C5_list_topics_shape_witness :
    "Sushi Rice" ∈ (sushi_list_topics exMetas 20).topics
    ∧ "Sushi Rice" ∈ exMetas.filterMap truthy_label := by
  have hmem : "Sushi Rice" ∈ (sushi_list_topics exMetas 20).topics := by decide
  exact ⟨hmem, (C5_list_topics_shape exMetas 20 1).2.2.2.2.2.2.2 "Sushi Rice" hmem⟩

/-- An exception whose message names the API-key environment variable. -/
def keyErr : PyException :=
  ⟨"AuthenticationError", "OPENAI_API_KEY environment variable missing"⟩

/-- An exception whose message says a collection does not exist. -/
def collErr : PyException :=
  ⟨"InvalidCollectionException", "Collection sushi_menu does not exist."⟩

/-- An exception matching neither substring check. -/
def otherErr : PyException := ⟨"TimeoutError", "request timed out"⟩

/-- Claim C6: the error classifier applies its three checks in order: a
message containing the API-key environment variable name yields the fixed
credential instruction; otherwise a message containing does-not-exist or
no-such case-insensitively yields the fixed missing-collection
instruction; otherwise the generic Error: kind: message string is built
from the exception type name and message. -/
theorem C6_error_classifier_order (e : PyException) :
    (strContains e.msg "OPENAI_API_KEY" = true
      → handle_error e
          = "Error: OPENAI_API_KEY is not set. Export it before starting the server.")
    ∧ (strContains e.msg "OPENAI_API_KEY" = false
      → (strContains (pyLower e.msg) "does not exist"
            || strContains (pyLower e.msg) "no such") = true
      → handle_error e
          = "Error: ChromaDB collection not found. Run the ingestion script to populate \x27"
              ++ CHROMA_COLLECTION ++ "\x27 first.")
    ∧ (strContains e.msg "OPENAI_API_KEY" = false
      → (strContains (pyLower e.msg) "does not exist"
            || strContains (pyLower e.msg) "no such") = false
      → handle_error e = "Error: " ++ e.kind ++ ": " ++ e.msg) := by
  refine ⟨fun h1 => ?_, fun h1 h2 => ?_, fun h1 h2 => ?_⟩
  · simp [handle_error, h1]
  · simp [handle_error, h1, h2]
  · simp [handle_error, h1, h2]

/-- Witness for C6 on three concrete exceptions, one per branch. -/
theorem C6_error_classifier_order_witness :
    handle_error keyErr
        = "Error: OPENAI_API_KEY is not set. Export it before starting the server."
    ∧ handle_error collErr
        = "Error: ChromaDB collection not found. Run the ingestion script to populate \x27"
            ++ CHROMA_COLLECTION ++ "\x27 first."
    ∧ handle_error otherErr = "Error: " ++ otherErr.kind ++ ": " ++ otherErr.msg :=
  ⟨(C6_error_classifier_order keyErr).1 (by decide),
   (C6_error_classifier_order collErr).2.1 (by decide) (by decide),
   (C6_error_classifier_order otherErr).2.2 (by decide) (by decide)⟩

/-- Claim C7: a sushi_rag_query call whose k_docs equals the default width
uses the cached startup pipeline and builds nothing; a call whose k_docs
differs builds a fresh pipeline for that call; over any sequence of calls
the number of pipeline constructions is exactly the number of calls with a
non-default k_docs, so non-default pipelines are never cached. -/
theorem C7_pipeline_reuse :
    (∀ k : Nat, k = DEFAULT_K_DOCS → select_chain k = Chain.cached)
    ∧ (∀ k : Nat, k ≠ DEFAULT_K_DOCS → select_chain k = Chain.fresh k)
    ∧ (∀ calls : List Nat,
        builds_for calls
          = (calls.filter (fun c => decide (c ≠ DEFAULT_K_DOCS))).length) := by
  refine ⟨?_, ?_, ?_⟩
  · intro k hk
    simp [select_chain, hk]
  · intro k hk
    simp [select_chain, hk]
  · intro calls
    induction calls with
    | nil => rfl
    | cons c rest ih =>
      by_cases hc : c = DEFAULT_K_DOCS
      · simp [builds_for, List.filter, hc, ih]
      · simp [builds_for, List.filter, hc, ih, Nat.add_comm]

/-- Witness for C7: the default width reuses the cache, a non-default
width builds, and a call sequence builds once per non-default call. -/
theorem C7_pipeline_reuse_witness :
    select_chain 4 = Chain.cached
    ∧ select_chain 7 = Chain.fresh 7
    ∧ builds_for [4, 7, 7]
        = (([4, 7, 7] : List Nat).filter (fun c => decide (c ≠ DEFAULT_K_DOCS))).length :=
  ⟨C7_pipeline_reuse.1 4 rfl,
   C7_pipeline_reuse.2.1 7 (by decide),
   C7_pipeline_reuse.2.2 [4, 7, 7]⟩

/-- Claim C8 identifies a code bug: the spec and the function docstring
intend a stats object built from a transient vector-store handle, but
the import of chromadb (line 117) is local to app_lifespan, so line 419 raises
NameError on every call and the except handler makes get_kb_stats return
the one-key error object instead.  Evaluating the code for every backend
state: the result is always the error object, its only key is error, and
it is never the four-key stats object — neither under the key names the
claim lists nor under the chroma_-prefixed names of the dead code. -/
theorem C8_stats_always_name_error (backend : List Doc) :
    get_kb_stats backend = [("error", JVal.s chromadbNameError.msg)]
    ∧ (get_kb_stats backend).map Prod.fst = ["error"]
    ∧ (get_kb_stats backend).map Prod.fst
        ≠ ["collection", "host", "port", "document_chunks"]
    ∧ (get_kb_stats backend).map Prod.fst
        ≠ ["collection", "chroma_host", "chroma_port", "document_chunks"] := by
  have h : (get_kb_stats backend).map Prod.fst = ["error"] := rfl
  refine ⟨rfl, h, ?_, ?_⟩ <;> rw [h] <;> decide

end SushiRag
